import Mathlib

/-!
Shallow embedding of the AetherOS camera-motion video engine
(src/tools/video_gen/server.py): easing, motion interpolation, crop
geometry, the preset catalog, and the numeric behaviour of the /generate
handler (frame count, GIF timing, encoder fallback, response fields).
Python floats are modelled by exact rationals; the Python int() builtin
applied to a float truncates toward zero and is modelled by pyInt.
-/

namespace VideoGen

/-- Truncation toward zero, the behaviour of the Python int() builtin on
a float value. -/
def pyInt (q : ℚ) : ℤ := if 0 ≤ q then ⌊q⌋ else ⌈q⌉

/-- A motion specification: start and end scale and normalized focal
point, mirroring the dicts stored in MOTION_PRESETS and built from the
motion field of a request. -/
structure Motion where
  start_scale : ℚ
  end_scale : ℚ
  start_x : ℚ
  end_x : ℚ
  start_y : ℚ
  end_y : ℚ
  deriving DecidableEq, Repr

/-- Easing: the source computes t * t * (3 - 2 * t). -/
def ease_in_out (t : ℚ) : ℚ := t * t * (3 - 2 * t)

/-- Interpolation factor before easing: frame_idx / max(total_frames - 1, 1).
Natural subtraction agrees with the Python expression for every
total_frames ≥ 0 because max(total_frames - 1, 1) ignores the sign. -/
def progress (frame_idx total_frames : ℕ) : ℚ :=
  (frame_idx : ℚ) / ((max (total_frames - 1) 1 : ℕ) : ℚ)

/-- Linear interpolation a + (b - a) * t used for scale, cx and cy. -/
def interp (a b t : ℚ) : ℚ := a + (b - a) * t

/-- Eased interpolation factor of one frame. -/
def frameT (frame_idx total_frames : ℕ) : ℚ :=
  ease_in_out (progress frame_idx total_frames)

/-- Interpolated scale of one frame. -/
def frameScale (frame_idx total_frames : ℕ) (m : Motion) : ℚ :=
  interp m.start_scale m.end_scale (frameT frame_idx total_frames)

/-- Interpolated horizontal focal point of one frame. -/
def frameCx (frame_idx total_frames : ℕ) (m : Motion) : ℚ :=
  interp m.start_x m.end_x (frameT frame_idx total_frames)

/-- Interpolated vertical focal point of one frame. -/
def frameCy (frame_idx total_frames : ℕ) (m : Motion) : ℚ :=
  interp m.start_y m.end_y (frameT frame_idx total_frames)

/-- Crop width: crop_w = int(w / scale). -/
def cropW (w frame_idx total_frames : ℕ) (m : Motion) : ℤ :=
  pyInt ((w : ℚ) / frameScale frame_idx total_frames m)

/-- Crop height: crop_h = int(h / scale). -/
def cropH (h frame_idx total_frames : ℕ) (m : Motion) : ℤ :=
  pyInt ((h : ℚ) / frameScale frame_idx total_frames m)

/-- Unclamped left edge: x1 = int((w - crop_w) * cx). -/
def rawX1 (w frame_idx total_frames : ℕ) (m : Motion) : ℤ :=
  pyInt (((w : ℚ) - (cropW w frame_idx total_frames m : ℚ)) *
    frameCx frame_idx total_frames m)

/-- Unclamped top edge: y1 = int((h - crop_h) * cy). -/
def rawY1 (h frame_idx total_frames : ℕ) (m : Motion) : ℤ :=
  pyInt (((h : ℚ) - (cropH h frame_idx total_frames m : ℚ)) *
    frameCy frame_idx total_frames m)

/-- Clamped left edge: x1 = max(0, min(x1, w - crop_w)). -/
def clampedX1 (w frame_idx total_frames : ℕ) (m : Motion) : ℤ :=
  max 0 (min (rawX1 w frame_idx total_frames m)
    ((w : ℤ) - cropW w frame_idx total_frames m))

/-- Clamped top edge: y1 = max(0, min(y1, h - crop_h)). -/
def clampedY1 (h frame_idx total_frames : ℕ) (m : Motion) : ℤ :=
  max 0 (min (rawY1 h frame_idx total_frames m)
    ((h : ℤ) - cropH h frame_idx total_frames m))

/-- All quantities computed by generate_frame for one frame: the eased
factor, interpolated camera parameters, the crop rectangle after the
clamp, and the dimensions of the resampled output frame. -/
structure FrameGeom where
  t : ℚ
  scale : ℚ
  cx : ℚ
  cy : ℚ
  crop_w : ℤ
  crop_h : ℤ
  x1 : ℤ
  y1 : ℤ
  x2 : ℤ
  y2 : ℤ
  out_w : ℕ
  out_h : ℕ
  deriving DecidableEq, Repr, Inhabited

/-- Geometry of generate_frame(img_array, frame_idx, total_frames, motion)
where w and h are the dimensions of the source array; the final resize
targets (w, h) exactly as in the source. -/
def generate_frame (w h : ℕ) (frame_idx total_frames : ℕ) (m : Motion) :
    FrameGeom :=
  { t := frameT frame_idx total_frames
    scale := frameScale frame_idx total_frames m
    cx := frameCx frame_idx total_frames m
    cy := frameCy frame_idx total_frames m
    crop_w := cropW w frame_idx total_frames m
    crop_h := cropH h frame_idx total_frames m
    x1 := clampedX1 w frame_idx total_frames m
    y1 := clampedY1 h frame_idx total_frames m
    x2 := clampedX1 w frame_idx total_frames m + cropW w frame_idx total_frames m
    y2 := clampedY1 h frame_idx total_frames m + cropH h frame_idx total_frames m
    out_w := w
    out_h := h }

/-- The zoom_in preset, which is also the fallback default of the catalog. -/
def zoomInSpec : Motion :=
  { start_scale := 1, end_scale := 13/10
    start_x := 1/2, end_x := 1/2, start_y := 1/2, end_y := 1/2 }

/-- The MOTION_PRESETS table, as a finite map from names to specs. -/
def MOTION_PRESETS (name : String) : Option Motion :=
  if name = "zoom_in" then some zoomInSpec
  else if name = "zoom_out" then some
    { start_scale := 13/10, end_scale := 1
      start_x := 1/2, end_x := 1/2, start_y := 1/2, end_y := 1/2 }
  else if name = "pan_left" then some
    { start_scale := 12/10, end_scale := 12/10
      start_x := 7/10, end_x := 3/10, start_y := 1/2, end_y := 1/2 }
  else if name = "pan_right" then some
    { start_scale := 12/10, end_scale := 12/10
      start_x := 3/10, end_x := 7/10, start_y := 1/2, end_y := 1/2 }
  else if name = "pan_up" then some
    { start_scale := 12/10, end_scale := 12/10
      start_x := 1/2, end_x := 1/2, start_y := 7/10, end_y := 3/10 }
  else if name = "pan_down" then some
    { start_scale := 12/10, end_scale := 12/10
      start_x := 1/2, end_x := 1/2, start_y := 3/10, end_y := 7/10 }
  else if name = "zoom_pan_tl" then some
    { start_scale := 1, end_scale := 14/10
      start_x := 1/2, end_x := 3/10, start_y := 1/2, end_y := 3/10 }
  else if name = "zoom_pan_tr" then some
    { start_scale := 1, end_scale := 14/10
      start_x := 1/2, end_x := 7/10, start_y := 1/2, end_y := 3/10 }
  else if name = "zoom_pan_bl" then some
    { start_scale := 1, end_scale := 14/10
      start_x := 1/2, end_x := 3/10, start_y := 1/2, end_y := 7/10 }
  else if name = "zoom_pan_br" then some
    { start_scale := 1, end_scale := 14/10
      start_x := 1/2, end_x := 7/10, start_y := 1/2, end_y := 7/10 }
  else if name = "dramatic_zoom" then some
    { start_scale := 1, end_scale := 2
      start_x := 1/2, end_x := 1/2, start_y := 1/2, end_y := 1/2 }
  else if name = "slow_drift" then some
    { start_scale := 11/10, end_scale := 115/100
      start_x := 45/100, end_x := 55/100, start_y := 48/100, end_y := 52/100 }
  else none

/-- Catalog lookup MOTION_PRESETS.get(preset, MOTION_PRESETS["zoom_in"]). -/
def lookupPreset (name : String) : Motion :=
  (MOTION_PRESETS name).getD zoomInSpec

/-- The motion object of a request; every field is optional, matching the
custom_motion.get(field, default) calls in the source. -/
structure CustomMotion where
  start_scale : Option ℚ := none
  end_scale : Option ℚ := none
  start_x : Option ℚ := none
  end_x : Option ℚ := none
  start_y : Option ℚ := none
  end_y : Option ℚ := none
  deriving DecidableEq, Repr

/-- Builds the motion dict from a custom motion object, with the per-field
defaults of the source. -/
def customToMotion (cm : CustomMotion) : Motion :=
  { start_scale := cm.start_scale.getD 1
    end_scale := cm.end_scale.getD (13/10)
    start_x := cm.start_x.getD (1/2)
    end_x := cm.end_x.getD (1/2)
    start_y := cm.start_y.getD (1/2)
    end_y := cm.end_y.getD (1/2) }

/-- A /generate request: the dimensions of the decoded source image and
the optional JSON fields the handler reads via data.get. -/
structure GenRequest where
  img_w : ℕ
  img_h : ℕ
  preset : Option String := none
  duration : Option ℚ := none
  fps : Option ℚ := none
  format : Option String := none
  motion : Option CustomMotion := none
  deriving DecidableEq, Repr

/-- Clamped duration: min(max(data.get("duration", 3), 1), 10). -/
def clampedDuration (req : GenRequest) : ℚ :=
  min (max (req.duration.getD 3) 1) 10

/-- Clamped fps: min(max(data.get("fps", 24), 12), 60). -/
def clampedFps (req : GenRequest) : ℚ :=
  min (max (req.fps.getD 24) 12) 60

/-- Requested preset name: data.get("preset", "zoom_in"). -/
def reqPreset (req : GenRequest) : String := req.preset.getD "zoom_in"

/-- Requested output format: data.get("format", "gif"). -/
def reqFormat (req : GenRequest) : String := req.format.getD "gif"

/-- The motion actually used: a custom motion object overrides the preset. -/
def usedMotion (req : GenRequest) : Motion :=
  match req.motion with
  | some cm => customToMotion cm
  | none => lookupPreset (reqPreset req)

/-- Even-dimension normalization (n // 2) * 2 applied to the source. -/
def even_adjust (n : ℕ) : ℕ := (n / 2) * 2

/-- Frame count: total_frames = int(duration * fps). -/
def totalFrames (req : GenRequest) : ℤ :=
  pyInt (clampedDuration req * clampedFps req)

/-- The generated frame sequence: generate_frame once per index in
range(total_frames), over the even-adjusted source dimensions. -/
def frameList (req : GenRequest) : List FrameGeom :=
  (List.range (totalFrames req).toNat).map
    (fun i => generate_frame (even_adjust req.img_w) (even_adjust req.img_h)
      i (totalFrames req).toNat (usedMotion req))

/-- The per-frame delay written on the GIF path: int(1000 / fps) ms. -/
def gifDelay (req : GenRequest) : ℤ := pyInt (1000 / clampedFps req)

/-- The loop parameter written on the GIF path; the value 0 means that the
GIF loops forever. -/
def gifLoop : ℕ := 0

/-- The container format actually encoded: the GIF branch runs when the
string "gif" was requested; any other request takes the MP4 branch, which
falls back to GIF when the imageio dependency is unavailable (the source
catches ImportError and re-saves as GIF). -/
def encodedFormat (req : GenRequest) (imageioAvailable : Bool) : String :=
  if reqFormat req = "gif" then "gif"
  else if imageioAvailable then reqFormat req
  else "gif"

/-- The fields of the success JSON of the handler that the spec mentions. -/
structure GenResponse where
  success : Bool
  format : String
  duration : ℚ
  fps : ℚ
  frames : ℤ
  preset : String
  deriving DecidableEq, Repr

/-- The success response assembled at the end of generate(). -/
def generate_response (req : GenRequest) (imageioAvailable : Bool) :
    GenResponse :=
  { success := true
    format := encodedFormat req imageioAvailable
    duration := clampedDuration req
    fps := clampedFps req
    frames := totalFrames req
    preset := reqPreset req }

/-- Modelled from the spec: the rounding function used by the spec
formulas round(duration × fps) and round(1000 / fps); round half up. -/
def specRound (q : ℚ) : ℤ := ⌊q + 1/2⌋

end VideoGen

namespace VideoGen

/-! Helper lemmas shared by the claim theorems. -/

theorem pyInt_eq_floor (q : ℚ) (h : 0 ≤ q) : pyInt q = ⌊q⌋ := if_pos h

theorem progress_zero (N : ℕ) : progress 0 N = 0 := by
  simp [progress]

theorem progress_last (N : ℕ) (hN : 2 ≤ N) : progress (N - 1) N = 1 := by
  unfold progress
  rw [Nat.max_eq_left (by omega)]
  have hne : ((N - 1 : ℕ) : ℚ) ≠ 0 := Nat.cast_ne_zero.mpr (by omega)
  rw [div_self hne]

theorem progress_nonneg (i N : ℕ) : 0 ≤ progress i N := by
  unfold progress
  positivity

theorem progress_le_one (i N : ℕ) (h : i < N) : progress i N ≤ 1 := by
  unfold progress
  have hpos : (0 : ℚ) < ((max (N - 1) 1 : ℕ) : ℚ) := by
    exact_mod_cast Nat.lt_of_lt_of_le Nat.zero_lt_one (le_max_right (N - 1) 1)
  rw [div_le_one hpos]
  exact_mod_cast (show i ≤ max (N - 1) 1 by omega)

theorem ease_zero : ease_in_out 0 = 0 := by norm_num [ease_in_out]

theorem ease_one : ease_in_out 1 = 1 := by norm_num [ease_in_out]

theorem ease_nonneg (t : ℚ) (h0 : 0 ≤ t) (h1 : t ≤ 1) : 0 ≤ ease_in_out t := by
  unfold ease_in_out
  nlinarith

theorem ease_le_one (t : ℚ) (h0 : 0 ≤ t) (h1 : t ≤ 1) : ease_in_out t ≤ 1 := by
  unfold ease_in_out
  nlinarith [sq_nonneg (1 - t)]

theorem ease_mono (s t : ℚ) (h0 : 0 ≤ s) (hst : s ≤ t) (h1 : t ≤ 1) :
    ease_in_out s ≤ ease_in_out t := by
  unfold ease_in_out
  nlinarith [sq_nonneg (t - s), sq_nonneg (t + s),
    mul_nonneg h0 (sub_nonneg.mpr hst)]

theorem frameT_zero (N : ℕ) : frameT 0 N = 0 := by
  rw [frameT, progress_zero, ease_zero]

theorem frameT_last (N : ℕ) (hN : 2 ≤ N) : frameT (N - 1) N = 1 := by
  rw [frameT, progress_last N hN, ease_one]

theorem frameT_nonneg (i N : ℕ) (h : i < N) : 0 ≤ frameT i N :=
  ease_nonneg _ (progress_nonneg i N) (progress_le_one i N h)

theorem frameT_le_one (i N : ℕ) (h : i < N) : frameT i N ≤ 1 :=
  ease_le_one _ (progress_nonneg i N) (progress_le_one i N h)

theorem interp_le (a b t lo hi : ℚ) (ha : lo ≤ a) (hb : lo ≤ b)
    (ha2 : a ≤ hi) (hb2 : b ≤ hi) (ht0 : 0 ≤ t) (ht1 : t ≤ 1) :
    lo ≤ interp a b t ∧ interp a b t ≤ hi := by
  unfold interp
  constructor <;> nlinarith

theorem clampedFps_ge (req : GenRequest) : 12 ≤ clampedFps req := by
  unfold clampedFps
  exact le_min (le_max_right _ _) (by norm_num)

end VideoGen

namespace VideoGen

/-! Concrete requests used by witnesses and counterexamples. -/

/-- A request with format mp4 and all other fields defaulted. -/
def reqMp4 : GenRequest := { img_w := 8, img_h := 6, format := some "mp4" }

/-- A request naming an unknown preset and carrying a custom motion. -/
def reqEcho : GenRequest :=
  { img_w := 8, img_h := 6, preset := some "not_a_preset"
    motion := some { start_scale := some 2 } }

/-- A request whose duration times fps is the non-integer 32.52. -/
def reqRound : GenRequest :=
  { img_w := 4, img_h := 4, duration := some (271/100), fps := some 12 }

/-- A request with every optional field defaulted (fps defaults to 24). -/
def reqDefaults : GenRequest := { img_w := 5, img_h := 4 }

/-- A request producing a short 12-frame sequence from a 5 by 4 image. -/
def reqSmall : GenRequest :=
  { img_w := 5, img_h := 4, duration := some 1, fps := some 12 }

/-- A motion spec whose scale 600 exceeds a 512-pixel dimension. -/
def hugeZoom : Motion :=
  { start_scale := 600, end_scale := 600
    start_x := 1/2, end_x := 1/2, start_y := 1/2, end_y := 1/2 }

theorem crop_dim_bounds (d i N : ℕ) (m : Motion) (hi : i < N)
    (hs1 : 1 ≤ m.start_scale) (hs2 : 1 ≤ m.end_scale)
    (hd1 : m.start_scale ≤ (d : ℚ)) (hd2 : m.end_scale ≤ (d : ℚ)) :
    1 ≤ pyInt ((d : ℚ) / frameScale i N m) ∧
      pyInt ((d : ℚ) / frameScale i N m) ≤ (d : ℤ) := by
  have ht0 := frameT_nonneg i N hi
  have ht1 := frameT_le_one i N hi
  have hb := interp_le m.start_scale m.end_scale (frameT i N) 1 (d : ℚ)
    hs1 hs2 hd1 hd2 ht0 ht1
  have hs_lo : 1 ≤ frameScale i N m := hb.1
  have hs_hi : frameScale i N m ≤ (d : ℚ) := hb.2
  have hpos : 0 < frameScale i N m := lt_of_lt_of_le one_pos hs_lo
  have hq0 : 0 ≤ (d : ℚ) / frameScale i N m :=
    div_nonneg (by positivity) hpos.le
  rw [pyInt_eq_floor _ hq0]
  constructor
  · rw [Int.le_floor]
    push_cast
    rw [le_div_iff₀ hpos]
    linarith
  · calc ⌊(d : ℚ) / frameScale i N m⌋ ≤ ⌊(d : ℚ)⌋ :=
        Int.floor_le_floor (div_le_self (by positivity) hs_lo)
      _ = (d : ℤ) := Int.floor_natCast d

theorem frameList_getD (req : GenRequest) (i : ℕ)
    (hi : i < (totalFrames req).toNat) (d : FrameGeom) :
    (frameList req).getD i d =
      generate_frame (even_adjust req.img_w) (even_adjust req.img_h) i
        (totalFrames req).toNat (usedMotion req) := by
  unfold frameList
  rw [List.getD_eq_getElem?_getD, List.getElem?_map, List.getElem?_range hi]
  rfl

/-- C1: at frame index 0 the generator uses exactly the start state, at
index N-1 (for N ≥ 2) exactly the end state, and with a single frame the
interpolation factor is 0 so the frame uses the start state. -/
theorem frame_endpoints (w h N : ℕ) (m : Motion) (hN : 2 ≤ N) :
    ((generate_frame w h 0 N m).scale = m.start_scale ∧
      (generate_frame w h 0 N m).cx = m.start_x ∧
      (generate_frame w h 0 N m).cy = m.start_y) ∧
    ((generate_frame w h (N - 1) N m).scale = m.end_scale ∧
      (generate_frame w h (N - 1) N m).cx = m.end_x ∧
      (generate_frame w h (N - 1) N m).cy = m.end_y) ∧
    ((generate_frame w h 0 1 m).t = 0 ∧
      (generate_frame w h 0 1 m).scale = m.start_scale ∧
      (generate_frame w h 0 1 m).cx = m.start_x ∧
      (generate_frame w h 0 1 m).cy = m.start_y) := by
  refine ⟨⟨?_, ?_, ?_⟩, ⟨?_, ?_, ?_⟩, ?_, ?_, ?_, ?_⟩
  · show frameScale 0 N m = m.start_scale
    rw [frameScale, frameT_zero]; unfold interp; ring
  · show frameCx 0 N m = m.start_x
    rw [frameCx, frameT_zero]; unfold interp; ring
  · show frameCy 0 N m = m.start_y
    rw [frameCy, frameT_zero]; unfold interp; ring
  · show frameScale (N - 1) N m = m.end_scale
    rw [frameScale, frameT_last N hN]; unfold interp; ring
  · show frameCx (N - 1) N m = m.end_x
    rw [frameCx, frameT_last N hN]; unfold interp; ring
  · show frameCy (N - 1) N m = m.end_y
    rw [frameCy, frameT_last N hN]; unfold interp; ring
  · exact frameT_zero 1
  · show frameScale 0 1 m = m.start_scale
    rw [frameScale, frameT_zero]; unfold interp; ring
  · show frameCx 0 1 m = m.start_x
    rw [frameCx, frameT_zero]; unfold interp; ring
  · show frameCy 0 1 m = m.start_y
    rw [frameCy, frameT_zero]; unfold interp; ring

/-- Witness for C1 at a 10 by 10 image with the zoom_in spec and N = 2. -/
theorem frame_endpoints_witness :
    2 ≤ 2 ∧
    (generate_frame 10 10 0 2 zoomInSpec).scale = zoomInSpec.start_scale ∧
    (generate_frame 10 10 1 2 zoomInSpec).scale = zoomInSpec.end_scale :=
  ⟨le_refl 2, (frame_endpoints 10 10 2 zoomInSpec (le_refl 2)).1.1,
    (frame_endpoints 10 10 2 zoomInSpec (le_refl 2)).2.1.1⟩

/-- C6: the easing function satisfies ease 0 = 0, ease 1 = 1,
ease (1/2) = 1/2, follows the smoothstep formula, is monotone
non-decreasing on the unit interval and maps it into itself. -/
theorem ease_in_out_props (s t : ℚ) (h0 : 0 ≤ s) (hst : s ≤ t) (h1 : t ≤ 1) :
    ease_in_out 0 = 0 ∧ ease_in_out 1 = 1 ∧ ease_in_out (1/2) = 1/2 ∧
    ease_in_out t = t * t * (3 - 2 * t) ∧
    ease_in_out s ≤ ease_in_out t ∧
    0 ≤ ease_in_out s ∧ ease_in_out t ≤ 1 :=
  ⟨ease_zero, ease_one, by norm_num [ease_in_out], rfl,
    ease_mono s t h0 hst h1, ease_nonneg s h0 (hst.trans h1),
    ease_le_one t (h0.trans hst) h1⟩

/-- Witness for C6 at the sample points 1/4 and 3/4. -/
theorem ease_in_out_props_witness :
    ((0:ℚ) ≤ 1/4 ∧ (1/4:ℚ) ≤ 3/4 ∧ (3/4:ℚ) ≤ 1) ∧
    ease_in_out (1/4) ≤ ease_in_out (3/4) :=
  ⟨⟨by norm_num, by norm_num, by norm_num⟩,
    (ease_in_out_props (1/4) (3/4) (by norm_num) (by norm_num)
      (by norm_num)).2.2.2.2.1⟩

/-- C9: preset lookup is total; a known name returns its catalog entry
and an unknown name falls back to the zoom_in spec with start scale 1,
end scale 1.3 and the center fixed at (1/2, 1/2). -/
theorem preset_lookup_total (name : String) :
    (∀ s, MOTION_PRESETS name = some s → lookupPreset name = s) ∧
    (MOTION_PRESETS name = none → lookupPreset name = zoomInSpec) ∧
    zoomInSpec.start_scale = 1 ∧ zoomInSpec.end_scale = 13/10 ∧
    zoomInSpec.start_x = 1/2 ∧ zoomInSpec.end_x = 1/2 ∧
    zoomInSpec.start_y = 1/2 ∧ zoomInSpec.end_y = 1/2 := by
  refine ⟨?_, ?_, rfl, rfl, rfl, rfl, rfl, rfl⟩
  · intro s hs
    rw [lookupPreset, hs]
    rfl
  · intro hn
    rw [lookupPreset, hn]
    rfl

/-- Witness for C9 at an unknown name and at the pan_left preset. -/
theorem preset_lookup_witness :
    MOTION_PRESETS "no_such_preset" = none ∧
    lookupPreset "no_such_preset" = zoomInSpec ∧
    lookupPreset "pan_left" =
      { start_scale := 12/10, end_scale := 12/10
        start_x := 7/10, end_x := 3/10, start_y := 1/2, end_y := 1/2 } :=
  ⟨by decide, (preset_lookup_total "no_such_preset").2.1 (by decide),
    (preset_lookup_total "pan_left").1 _ rfl⟩

/-- C4: when mp4 is requested and the encoder dependency is unavailable,
the response reports format gif and the request still succeeds. -/
theorem mp4_fallback (req : GenRequest) (a : Bool)
    (hfmt : reqFormat req = "mp4") (ha : a = false) :
    (generate_response req a).format = "gif" ∧
    (generate_response req a).success = true := by
  subst ha
  refine ⟨?_, rfl⟩
  show encodedFormat req false = "gif"
  rw [encodedFormat, hfmt]
  norm_num

/-- Witness for C4 at a concrete request asking for mp4. -/
theorem mp4_fallback_witness :
    reqFormat reqMp4 = "mp4" ∧ (generate_response reqMp4 false).format = "gif" :=
  ⟨rfl, (mp4_fallback reqMp4 false rfl rfl).1⟩

/-- C10: the response echoes the requested preset name (default zoom_in)
unchanged, while the motion actually used is the custom motion when one
is supplied and the catalog lookup (with its fallback) otherwise. -/
theorem preset_echo (req : GenRequest) (a : Bool) :
    (generate_response req a).preset = req.preset.getD "zoom_in" ∧
    (∀ cm, req.motion = some cm → usedMotion req = customToMotion cm) ∧
    (req.motion = none →
      usedMotion req = lookupPreset (req.preset.getD "zoom_in")) := by
  refine ⟨rfl, ?_, ?_⟩
  · intro cm hcm
    simp [usedMotion, hcm]
  · intro hn
    simp [usedMotion, hn, reqPreset]

/-- Witness for C10: an unknown preset name is echoed verbatim even
though a custom motion object overrode it. -/
theorem preset_echo_witness :
    (generate_response reqEcho true).preset = "not_a_preset" ∧
    usedMotion reqEcho = customToMotion { start_scale := some 2 } :=
  ⟨(preset_echo reqEcho true).1, (preset_echo reqEcho true).2.1 _ rfl⟩

end VideoGen

namespace VideoGen

/-- C2 counterexample: on a 1 by 1 image the zoom_in preset already
yields an empty crop window at the last of two frames, refuting the
claim that the window is always non-empty. -/
theorem crop_window_cex :
    (generate_frame 1 1 1 2 zoomInSpec).x1 = 0 ∧
    (generate_frame 1 1 1 2 zoomInSpec).x2 = 0 ∧
    ¬ ((generate_frame 1 1 1 2 zoomInSpec).x1 <
        (generate_frame 1 1 1 2 zoomInSpec).x2) := by
  refine ⟨?_, ?_, ?_⟩ <;>
    norm_num [generate_frame, clampedX1, rawX1, cropW, frameScale, frameCx,
      frameT, interp, ease_in_out, progress, pyInt, zoomInSpec]

/-- C2 amended: whenever both endpoint scales lie between 1 and each
image dimension (so the implied crop window is at least one pixel), the
crop window of every frame is non-empty and inside the image bounds. -/
theorem crop_window_in_bounds (w h i N : ℕ) (m : Motion) (hi : i < N)
    (hs1 : 1 ≤ m.start_scale) (hs2 : 1 ≤ m.end_scale)
    (hsw1 : m.start_scale ≤ (w : ℚ)) (hsw2 : m.end_scale ≤ (w : ℚ))
    (hsh1 : m.start_scale ≤ (h : ℚ)) (hsh2 : m.end_scale ≤ (h : ℚ)) :
    0 ≤ (generate_frame w h i N m).x1 ∧
    (generate_frame w h i N m).x1 < (generate_frame w h i N m).x2 ∧
    (generate_frame w h i N m).x2 ≤ (w : ℤ) ∧
    0 ≤ (generate_frame w h i N m).y1 ∧
    (generate_frame w h i N m).y1 < (generate_frame w h i N m).y2 ∧
    (generate_frame w h i N m).y2 ≤ (h : ℤ) := by
  have hx := crop_dim_bounds w i N m hi hs1 hs2 hsw1 hsw2
  have hy := crop_dim_bounds h i N m hi hs1 hs2 hsh1 hsh2
  have hcw1 : 1 ≤ cropW w i N m := hx.1
  have hcw2 : cropW w i N m ≤ (w : ℤ) := hx.2
  have hch1 : 1 ≤ cropH h i N m := hy.1
  have hch2 : cropH h i N m ≤ (h : ℤ) := hy.2
  have hx0 : 0 ≤ clampedX1 w i N m := le_max_left 0 _
  have hxle : clampedX1 w i N m ≤ (w : ℤ) - cropW w i N m :=
    max_le (by linarith) (min_le_right _ _)
  have hy0 : 0 ≤ clampedY1 h i N m := le_max_left 0 _
  have hyle : clampedY1 h i N m ≤ (h : ℤ) - cropH h i N m :=
    max_le (by linarith) (min_le_right _ _)
  refine ⟨hx0, ?_, ?_, hy0, ?_, ?_⟩
  · show clampedX1 w i N m < clampedX1 w i N m + cropW w i N m
    linarith
  · show clampedX1 w i N m + cropW w i N m ≤ (w : ℤ)
    linarith
  · show clampedY1 h i N m < clampedY1 h i N m + cropH h i N m
    linarith
  · show clampedY1 h i N m + cropH h i N m ≤ (h : ℤ)
    linarith

/-- Witness for the amended C2 at a 10 by 10 image with zoom_in. -/
theorem crop_window_in_bounds_witness :
    0 ≤ (generate_frame 10 10 0 2 zoomInSpec).x1 ∧
    (generate_frame 10 10 0 2 zoomInSpec).x1 <
      (generate_frame 10 10 0 2 zoomInSpec).x2 ∧
    (generate_frame 10 10 0 2 zoomInSpec).x2 ≤ (10 : ℤ) ∧
    0 ≤ (generate_frame 10 10 0 2 zoomInSpec).y1 ∧
    (generate_frame 10 10 0 2 zoomInSpec).y1 <
      (generate_frame 10 10 0 2 zoomInSpec).y2 ∧
    (generate_frame 10 10 0 2 zoomInSpec).y2 ≤ (10 : ℤ) :=
  crop_window_in_bounds 10 10 0 2 zoomInSpec (by norm_num)
    (by norm_num [zoomInSpec]) (by norm_num [zoomInSpec])
    (by norm_num [zoomInSpec]) (by norm_num [zoomInSpec])
    (by norm_num [zoomInSpec]) (by norm_num [zoomInSpec])

/-- C3: the code enforces no 1-pixel floor on the crop dimensions; a
scale of 600 on a 512 by 512 image makes both crop dimensions 0. -/
theorem crop_floor_missing :
    (generate_frame 512 512 0 1 hugeZoom).crop_w = 0 ∧
    (generate_frame 512 512 0 1 hugeZoom).crop_h = 0 ∧
    ¬ (1 ≤ (generate_frame 512 512 0 1 hugeZoom).crop_w) := by
  refine ⟨?_, ?_, ?_⟩ <;>
    norm_num [generate_frame, cropW, cropH, frameScale, frameT, interp,
      ease_in_out, progress, pyInt, hugeZoom]

/-- C5 counterexample: with duration 2.71 and fps 12 the handler produces
int(32.52) = 32 frames while round(duration × fps) is 33. -/
theorem frame_count_round_cex :
    totalFrames reqRound = 32 ∧
    specRound (clampedDuration reqRound * clampedFps reqRound) = 33 ∧
    totalFrames reqRound ≠
      specRound (clampedDuration reqRound * clampedFps reqRound) := by
  refine ⟨?_, ?_, ?_⟩ <;>
    norm_num [totalFrames, specRound, clampedDuration, clampedFps, reqRound,
      pyInt, min_def, max_def]

/-- C5 amended: the frame count equals int(duration × fps), truncated
rather than rounded; frame 0 is at eased progress 0 and the last frame at
eased progress 1 whenever there are at least two frames. -/
theorem frame_sequence (req : GenRequest) (a : Bool) :
    (generate_response req a).frames =
      pyInt (clampedDuration req * clampedFps req) ∧
    (frameList req).length = (totalFrames req).toNat ∧
    (0 < (totalFrames req).toNat →
      ((frameList req).getD 0 default).t = 0) ∧
    (2 ≤ (totalFrames req).toNat →
      ((frameList req).getD ((totalFrames req).toNat - 1) default).t = 1) := by
  refine ⟨rfl, ?_, ?_, ?_⟩
  · simp [frameList]
  · intro hpos
    rw [frameList_getD req 0 hpos]
    exact frameT_zero _
  · intro h2
    rw [frameList_getD req ((totalFrames req).toNat - 1) (by omega)]
    exact frameT_last _ h2

/-- Witness for the amended C5 at a 12-frame request. -/
theorem frame_sequence_witness :
    0 < (totalFrames reqSmall).toNat ∧ 2 ≤ (totalFrames reqSmall).toNat ∧
    ((frameList reqSmall).getD 0 default).t = 0 ∧
    ((frameList reqSmall).getD ((totalFrames reqSmall).toNat - 1)
      default).t = 1 := by
  have h2 : 2 ≤ (totalFrames reqSmall).toNat := by
    norm_num [totalFrames, clampedDuration, clampedFps, reqSmall, pyInt,
      min_def, max_def]
  exact ⟨by omega, h2, (frame_sequence reqSmall true).2.2.1 (by omega),
    (frame_sequence reqSmall true).2.2.2 h2⟩

/-- C7 counterexample: at the default fps of 24 the GIF delay written by
the code is int(1000/24) = 41 ms while round(1000/24) is 42 ms. -/
theorem gif_delay_round_cex :
    gifDelay reqDefaults = 41 ∧
    specRound (1000 / clampedFps reqDefaults) = 42 ∧
    gifDelay reqDefaults ≠ specRound (1000 / clampedFps reqDefaults) := by
  refine ⟨?_, ?_, ?_⟩ <;>
    norm_num [gifDelay, specRound, clampedFps, reqDefaults, pyInt,
      min_def, max_def]

/-- C7 amended: for every request the GIF delay is the truncation
(floor) of 1000 / fps in milliseconds, and the loop count 0 makes the
GIF loop forever. -/
theorem gif_delay_floor (req : GenRequest) :
    gifDelay req = ⌊(1000 : ℚ) / clampedFps req⌋ ∧ gifLoop = 0 := by
  refine ⟨?_, rfl⟩
  rw [gifDelay]
  exact pyInt_eq_floor _
    (div_nonneg (by norm_num) (le_trans (by norm_num) (clampedFps_ge req)))

/-- C8: every frame of the generated sequence has exactly the
even-adjusted source width and height, whatever the scale. -/
theorem frame_dims (req : GenRequest) (fg : FrameGeom)
    (hfg : fg ∈ frameList req) :
    fg.out_w = even_adjust req.img_w ∧ fg.out_h = even_adjust req.img_h := by
  unfold frameList at hfg
  obtain ⟨i, hi, rfl⟩ := List.mem_map.mp hfg
  exact ⟨rfl, rfl⟩

/-- Witness for C8: the first frame of a concrete 5 by 4 request. -/
theorem frame_dims_witness :
    generate_frame (even_adjust reqSmall.img_w) (even_adjust reqSmall.img_h)
      0 (totalFrames reqSmall).toNat (usedMotion reqSmall) ∈
      frameList reqSmall ∧
    (generate_frame (even_adjust reqSmall.img_w) (even_adjust reqSmall.img_h)
      0 (totalFrames reqSmall).toNat (usedMotion reqSmall)).out_w =
      even_adjust reqSmall.img_w := by
  have hmem : generate_frame (even_adjust reqSmall.img_w)
      (even_adjust reqSmall.img_h) 0 (totalFrames reqSmall).toNat
      (usedMotion reqSmall) ∈ frameList reqSmall := by
    unfold frameList
    refine List.mem_map.mpr ⟨0, List.mem_range.mpr ?_, rfl⟩
    norm_num [totalFrames, clampedDuration, clampedFps, reqSmall, pyInt,
      min_def, max_def]
  exact ⟨hmem, (frame_dims reqSmall _ hmem).1⟩

end VideoGen
